import Mathlib

/-!
Verification of the Evidence Synthesis Pipeline of the gene–disease analysis
backend. Each Python function that the specification talks about is embedded
as an executable Lean definition operating on explicit data (lists of
characters for text, integer timestamps for the rate limiter, explicit
outcome values for network calls), and the specification's sentences are
stated and settled as theorems about those definitions.
-/

namespace GeneDisease

/-! ## Text primitives (Python `re`/`str` semantics used by `split_sentences`) -/

/-- ASCII whitespace recognised by Python's `\s` class and `str.strip`. -/
def isPySpace (c : Char) : Bool :=
  c = ' ' || c = '\t' || c = '\n' || c = '\r' || c = '\x0b' || c = '\x0c'

/-- Auxiliary scanner for `re.sub(r"\s+", " ", text)`: the Bool records
whether the previous character was part of a whitespace run already
collapsed to a single space. -/
def collapseWsGo : List Char → Bool → List Char
  | [], _ => []
  | c :: rest, inRun =>
    if isPySpace c then
      if inRun then collapseWsGo rest true else ' ' :: collapseWsGo rest true
    else c :: collapseWsGo rest false

/-- Python `re.sub(r"\s+", " ", text)`: every maximal whitespace run becomes one space. -/
def collapseWs (l : List Char) : List Char := collapseWsGo l false

/-- Python `str.strip()`: drop whitespace from both ends. -/
def pyStrip (l : List Char) : List Char :=
  ((l.dropWhile isPySpace).reverse.dropWhile isPySpace).reverse

/-- Python `str.replace(pat, rep)` for a nonempty pattern `p :: ps`:
leftmost match, non-overlapping, the replacement text is not rescanned.
The `Nat` is scan-step fuel; every step consumes at least one input
character, so fuel equal to the input length never runs out. -/
def pyReplaceGo (p : Char) (ps rep : List Char) : Nat → List Char → List Char
  | _, [] => []
  | 0, l => l
  | f + 1, c :: rest =>
    if (p :: ps).isPrefixOf (c :: rest) then
      rep ++ pyReplaceGo p ps rep f (rest.drop ps.length)
    else
      c :: pyReplaceGo p ps rep f rest

/-- Python `str.replace` lifted to a possibly-empty pattern; every pattern the
pipeline uses (the abbreviation strings and their placeholders) is nonempty,
and for those this agrees with Python. -/
def pyReplaceL (l pat rep : List Char) : List Char :=
  match pat with
  | [] => l
  | p :: ps => pyReplaceGo p ps rep l.length l

/-- The `protected` dict of `split_sentences`, in Python insertion order:
abbreviation string paired with its placeholder token. -/
def protectedAbbrevs : List (String × String) :=
  [("e.g.", "eg"), ("i.e.", "ie"), ("et al.", "etal"), ("Fig.", "Fig"), ("Dr.", "Dr")]

/-- Sentence-terminal punctuation of the split pattern `[\.\?\!]`. -/
def isTermPunct (c : Char) : Bool := c = '.' || c = '?' || c = '!'

/-- The lookahead class `[A-Z0-9]`. -/
def isUpperDigit (c : Char) : Bool :=
  ('A' ≤ c && c ≤ 'Z') || ('0' ≤ c && c ≤ '9')

/-- Does the reversed accumulator end (i.e. did the emitted text end) in
sentence-terminal punctuation?  Implements the lookbehind `(?<=[\.\?\!])`. -/
def endsTermPunct : List Char → Bool
  | [] => false
  | t :: _ => isTermPunct t

/-- Scanner for `re.split(r"(?<=[\.\?\!])\s+(?=[A-Z0-9])", text)`.
`pend` holds (reversed) a whitespace run that began right after terminal
punctuation and may yet become a separator; `acc` holds (reversed) the
current segment.  A run is a separator exactly when the first character
after it is in `[A-Z0-9]`; otherwise it is literal text. -/
def pySplitGo : List Char → List Char → List Char → List (List Char)
  | [], pend, acc => [(pend ++ acc).reverse]
  | c :: rest, pend, acc =>
    if isPySpace c then
      match pend with
      | [] =>
        if endsTermPunct acc then pySplitGo rest [c] acc
        else pySplitGo rest [] (c :: acc)
      | _ => pySplitGo rest (c :: pend) acc
    else
      match pend with
      | [] => pySplitGo rest [] (c :: acc)
      | _ =>
        if isUpperDigit c then acc.reverse :: pySplitGo rest [] [c]
        else pySplitGo rest [] (c :: (pend ++ acc))

/-- Python `re.split(r"(?<=[\.\?\!])\s+(?=[A-Z0-9])", text)`. -/
def pySplitSents (l : List Char) : List (List Char) := pySplitGo l [] []

/-- Model of `split_sentences` from `data_fetcher.py`: collapse whitespace and strip,
substitute placeholder tokens for the protected abbreviations, split at
sentence boundaries, substitute the abbreviations back, then strip each
segment and drop the empty ones.  Empty input returns the empty list. -/
def split_sentences (s : String) : List String :=
  if s.data.isEmpty then []
  else
    let t1 := pyStrip (collapseWs s.data)
    let t2 := protectedAbbrevs.foldl (fun t kv => pyReplaceL t kv.1.data kv.2.data) t1
    let parts := pySplitSents t2
    let restored :=
      parts.map (fun part => protectedAbbrevs.foldl (fun t kv => pyReplaceL t kv.2.data kv.1.data) part)
    ((restored.map pyStrip).filter (fun part => !part.isEmpty)).map String.mk

/-- Contiguous-substring test on character lists, used to state the
"contains"/"unsplit" parts of the sentence-splitting claims. -/
def containsSub : List Char → List Char → Bool
  | [], needle => needle.isEmpty
  | c :: rest, needle => needle.isPrefixOf (c :: rest) || containsSub rest needle

/-- Claim C9: `split_sentences "Dr. Smith found X. This confirms Y."` yields
exactly the two sentences `"Dr. Smith found X."` and `"This confirms Y."`;
the first still contains `"Dr. Smith"` (the abbreviation boundary was not
split) and the second contains `"confirms Y"`. -/
theorem split_sentences_dr_smith :
    split_sentences "Dr. Smith found X. This confirms Y." =
      ["Dr. Smith found X.", "This confirms Y."]
    ∧ containsSub "Dr. Smith found X.".data "Dr. Smith".data = true
    ∧ containsSub "This confirms Y.".data "confirms Y".data = true := by
  decide

/-- Claim C10: the restoration step of `split_sentences` replaces every
occurrence of each placeholder substring, so the word `"regent"` — which
contains none of the five protected abbreviations — comes back rewritten as
`"re.g.ent"`, which is not a substring of the (whitespace-collapsed) input. -/
theorem split_sentences_regent_rewrite :
    protectedAbbrevs.all (fun kv => !containsSub "regent".data kv.1.data) = true
    ∧ split_sentences "regent" = ["re.g.ent"]
    ∧ containsSub (pyStrip (collapseWs "regent".data)) "re.g.ent".data = false := by
  decide

/-! ## Identifier Resolver: `resolve_gene_symbol` -/

/-- The fields of the Ensembl lookup response that `resolve_gene_symbol`
reads; `none` models an absent key. -/
structure GeneLookupDoc where
  id? : Option String
  displayName? : Option String
deriving DecidableEq, Repr

/-- Python `list({a, b})` for two strings: a two-element set literal
(iteration order of a Python set is unspecified; the claims about the
synonym list are stated up to membership). -/
def pySet2 (a b : String) : List String := if a = b then [a] else [a, b]

/-- Model of `resolve_gene_symbol` from `data_fetcher.py`.  The `resp` argument is
the outcome of the (retried) `fetch_json` call to the symbol-lookup
service: `Except.error` models any exception escaping it.  Returns
`(data.get("id"), [s for s in list({display_name or symbol, symbol}) if s])`
on success, and raises (models `RuntimeError`) when the call failed. -/
def resolve_gene_symbol (resp : Except Unit GeneLookupDoc) (symbol : String) :
    Except String (Option String × List String) :=
  match resp with
  | .error _ =>
      .error ("Could not resolve gene symbol '" ++ symbol ++ "' via Ensembl.")
  | .ok data =>
      let dn := data.displayName?.getD symbol
      .ok (data.id?, (pySet2 dn symbol).filter (fun s => s != ""))

/-- Claim C6, counterexample: a lookup response that carries a display name
but no `"id"` key does NOT make `resolve_gene_symbol` fail — it returns
`none` as the identifier, contradicting "fails with UnresolvedGeneError
... when it returns no identifier". -/
theorem resolve_gene_missing_id_returns_ok :
    (GeneLookupDoc.mk none (some "TP53")).id? = none
    ∧ resolve_gene_symbol (Except.ok (GeneLookupDoc.mk none (some "TP53"))) "TP53"
        = Except.ok (none, ["TP53"]) :=
  ⟨rfl, rfl⟩

/-- Claim C6, amended: `resolve_gene_symbol` fails exactly when the lookup
call itself errors; when the service responds it never fails, returning the
(possibly absent) identifier and a synonym list whose members are exactly
`{returned_display_name (defaulting to the input symbol), input_symbol}`
minus empty strings — in particular it contains the exact input symbol
whenever the input symbol is nonempty. -/
theorem resolve_gene_spec (resp : Except Unit GeneLookupDoc) (symbol : String) :
    (∀ e, resp = Except.error e →
        resolve_gene_symbol resp symbol
          = Except.error ("Could not resolve gene symbol '" ++ symbol ++ "' via Ensembl."))
    ∧ (∀ d, resp = Except.ok d →
        resolve_gene_symbol resp symbol
            = Except.ok (d.id?, (pySet2 (d.displayName?.getD symbol) symbol).filter (fun s => s != ""))
          ∧ (∀ s : String,
              s ∈ (pySet2 (d.displayName?.getD symbol) symbol).filter (fun s => s != "")
                ↔ ((s = d.displayName?.getD symbol ∨ s = symbol) ∧ s ≠ ""))
          ∧ (symbol ≠ "" →
              symbol ∈ (pySet2 (d.displayName?.getD symbol) symbol).filter (fun s => s != ""))) := by
  constructor
  · rintro e rfl
    rfl
  · rintro d rfl
    refine ⟨rfl, ?_, ?_⟩
    · intro s
      by_cases h : d.displayName?.getD symbol = symbol
      · simp [pySet2, h, List.mem_filter, and_comm]
      · simp only [pySet2, if_neg h, List.mem_filter, List.mem_cons, List.mem_singleton,
          bne_iff_ne, ne_eq]
        tauto
    · intro hs
      by_cases h : d.displayName?.getD symbol = symbol
      · simp [pySet2, h, List.mem_filter, hs]
      · simp [pySet2, if_neg h, List.mem_filter, hs]

/-- Witness for `resolve_gene_spec` at a concrete resolvable input. -/
theorem resolve_gene_spec_witness :
    resolve_gene_symbol (Except.ok (GeneLookupDoc.mk (some "ENSG00000141510") (some "TP53"))) "TP53"
      = Except.ok (some "ENSG00000141510", ["TP53"])
    ∧ "TP53" ∈
        (pySet2 ((GeneLookupDoc.mk (some "ENSG00000141510") (some "TP53")).displayName?.getD "TP53")
          "TP53").filter (fun s => s != "") := by
  have h := (resolve_gene_spec
      (Except.ok (GeneLookupDoc.mk (some "ENSG00000141510") (some "TP53"))) "TP53").2
      (GeneLookupDoc.mk (some "ENSG00000141510") (some "TP53")) rfl
  refine ⟨?_, h.2.2 (by decide)⟩
  have e : (pySet2 ((GeneLookupDoc.mk (some "ENSG00000141510") (some "TP53")).displayName?.getD
      "TP53") "TP53").filter (fun s => s != "") = ["TP53"] := by decide
  rw [h.1, e]

/-! ## Identifier Resolver: `resolve_disease_label` -/

/-- One document of the OLS search response, with exactly the keys
`resolve_disease_label` reads; `none` models an absent key. -/
structure OlsDoc where
  ontologyName? : Option String
  ontologyPfx? : Option String
  ontology? : Option String
  shortForm? : Option String
  oboId? : Option String
  label? : Option String
  name? : Option String
  synonym? : Option (List String)
  synonyms? : Option (List String)
deriving DecidableEq, Repr

/-- The `entry` dict built per document: `{"id": short, "label": lbl, "synonyms": syns}`. -/
structure OlsEntry where
  id : String
  label : String
  synonyms : List String
deriving DecidableEq, Repr

/-- Python `a or b` on optional strings, where `None` and `""` are falsy. -/
def pyOrS : Option String → Option String → Option String
  | some s, b => if s = "" then b else some s
  | none, b => b

/-- Python string truthiness of an optional string. -/
def pyTruthyS : Option String → Bool
  | some s => s != ""
  | none => false

/-- Splitting on a single character, Python `s.split("/")` semantics. -/
def splitOnCharGo (sep : Char) : List Char → List Char → List (List Char)
  | [], acc => [acc.reverse]
  | c :: rest, acc =>
    if c = sep then acc.reverse :: splitOnCharGo sep rest []
    else splitOnCharGo sep rest (c :: acc)

/-- Python `s.split("/")[-1]`. -/
def lastAfterSlash (s : String) : String :=
  String.mk (((splitOnCharGo '/' s.data []).getLast?).getD [])

/-- Python `s.lower()` (ASCII). -/
def strToLower (s : String) : String := String.mk (s.data.map Char.toLower)

/-- Python `s.startswith(p)`. -/
def strStartsWith (s p : String) : Bool := p.data.isPrefixOf s.data

/-- Python `onto = d.get("ontology_name") or d.get("ontology_prefix") or d.get("ontology")`. -/
def ontoOf (d : OlsDoc) : Option String :=
  pyOrS d.ontologyName? (pyOrS d.ontologyPfx? d.ontology?)

/-- Python `short = d.get("short_form") or d.get("obo_id", "").split("/")[-1]`. -/
def shortOf (d : OlsDoc) : String :=
  match pyOrS d.shortForm? (some (lastAfterSlash (d.oboId?.getD ""))) with
  | some s => s
  | none => ""

/-- Python `lbl = d.get("label") or d.get("name") or ""`. -/
def lblOf (d : OlsDoc) : String :=
  (pyOrS d.label? (pyOrS d.name? (some ""))).getD ""

/-- Python `syns = d.get("synonym", []) or d.get("synonyms", [])`. -/
def docSynsOf (d : OlsDoc) : List String :=
  let a := d.synonym?.getD []
  if a.isEmpty then d.synonyms?.getD [] else a

/-- The per-document entry. -/
def entryOf (d : OlsDoc) : OlsEntry :=
  ⟨shortOf d, lblOf d, docSynsOf d⟩

/-- Python `onto and onto.lower().startswith(tag)`. -/
def ontoMatches (o : Option String) (tag : String) : Bool :=
  match o with
  | some s => (s != "") && strStartsWith (strToLower s) tag
  | none => false

/-- The selection loop of `resolve_disease_label`: keep the first document
matching each ontology (`best_efo`, `best_mondo`). -/
def selectBest : List OlsDoc → Option OlsEntry → Option OlsEntry →
    Option OlsEntry × Option OlsEntry
  | [], e, m => (e, m)
  | d :: rest, e, m =>
    let e' := if ontoMatches (ontoOf d) "efo" && e.isNone then some (entryOf d) else e
    let m' := if ontoMatches (ontoOf d) "mondo" && m.isNone then some (entryOf d) else m
    selectBest rest e' m'

/-- The EFO id expression: `f"EFO_{id}"` unless the raw id already starts
with `"EFO_"`. -/
def efoCanonical (rawId : String) : String :=
  if strStartsWith rawId "EFO_" then rawId else "EFO_" ++ rawId

/-- The MONDO id expression: `f"MONDO:{id}"` (colon form) unless the raw id
already starts with `"MONDO"`. -/
def mondoCanonical (rawId : String) : String :=
  if strStartsWith rawId "MONDO" then rawId else "MONDO:" ++ rawId

/-- Deduplication keeping first occurrences (the second argument collects
the elements already seen). -/
def dedupFirstGo : List String → List String → List String
  | [], _ => []
  | s :: rest, seen =>
    if seen.contains s then dedupFirstGo rest seen
    else s :: dedupFirstGo rest (s :: seen)

/-- Python `list({*a, *b, label})`: a set union, modelled as a deduplicated
list (set iteration order is unspecified; claims are stated up to
membership). -/
def pySetUnion (a b : List String) (label : String) : List String :=
  dedupFirstGo (a ++ b ++ [label]) []

/-- Model of `resolve_disease_label` from `data_fetcher.py`, applied to the parsed
document list of the OLS response.  Returns `(efo_id or "", mondo_id,
synonyms)` or raises (models `RuntimeError`) when neither ontology matched. -/
def resolve_disease_label (docs : List OlsDoc) (label : String) :
    Except String (String × Option String × List String) :=
  let best := selectBest docs none none
  let efoId : Option String := best.1.map (fun e => efoCanonical e.id)
  let mondoId : Option String := best.2.map (fun m => mondoCanonical m.id)
  if !pyTruthyS efoId && !pyTruthyS mondoId then
    .error ("Could not resolve disease '" ++ label ++ "' via OLS.")
  else
    .ok (efoId.getD "",
         mondoId,
         pySetUnion ((best.1.map OlsEntry.synonyms).getD [])
           ((best.2.map OlsEntry.synonyms).getD []) label)

/-- Claim C7, counterexample: a MONDO match whose raw short-form id
`"0005233"` lacks the prefix is normalized to the COLON form
`"MONDO:0005233"`, not to the claimed canonical `PREFIX_xxxxxxx`
(underscore) form `"MONDO_0005233"`. -/
theorem resolve_disease_mondo_colon_form :
    resolve_disease_label
        [⟨some "mondo", none, none, some "0005233", none, none, none, none, none⟩]
        "lung cancer"
      = Except.ok ("", some "MONDO:0005233", ["lung cancer"])
    ∧ strStartsWith "MONDO:0005233" "MONDO_" = false :=
  ⟨rfl, rfl⟩

theorem efoCanonical_ne_empty (r : String) : efoCanonical r ≠ "" := by
  by_cases h : strStartsWith r "EFO_" = true
  · rw [efoCanonical, if_pos h]
    intro heq
    subst heq
    exact absurd h (by decide)
  · rw [efoCanonical, if_neg h]
    intro heq
    have hd : ("EFO_" ++ r).data = 'E' :: 'F' :: 'O' :: '_' :: r.data := rfl
    rw [heq] at hd
    simp at hd

theorem mondoCanonical_ne_empty (r : String) : mondoCanonical r ≠ "" := by
  by_cases h : strStartsWith r "MONDO" = true
  · rw [mondoCanonical, if_pos h]
    intro heq
    subst heq
    exact absurd h (by decide)
  · rw [mondoCanonical, if_neg h]
    intro heq
    have hd : ("MONDO:" ++ r).data = 'M' :: 'O' :: 'N' :: 'D' :: 'O' :: ':' :: r.data := rfl
    rw [heq] at hd
    simp at hd

/-- Claim C7, amended: for the first match of each ontology,
`resolve_disease_label` succeeds and emits the match's raw id through the
corresponding normalizer; the EFO normalizer prefixes `"EFO_"` (underscore
form) exactly when the raw id does not already start with `"EFO_"`, while
the MONDO normalizer prefixes `"MONDO:"` (COLON form, not the underscore
`PREFIX_xxxxxxx` shape) exactly when the raw id does not already start with
the string `"MONDO"`; an id already carrying its prefix is returned
unchanged. -/
theorem resolve_disease_normalization (docs : List OlsDoc) (label : String) :
    (∀ e, (selectBest docs none none).1 = some e →
        ∃ mid syns, resolve_disease_label docs label
          = Except.ok (efoCanonical e.id, mid, syns))
    ∧ (∀ m, (selectBest docs none none).2 = some m →
        ∃ eid syns, resolve_disease_label docs label
          = Except.ok (eid, some (mondoCanonical m.id), syns))
    ∧ (∀ r : String, strStartsWith r "EFO_" = true → efoCanonical r = r)
    ∧ (∀ r : String, strStartsWith r "EFO_" = false → efoCanonical r = "EFO_" ++ r)
    ∧ (∀ r : String, strStartsWith r "MONDO" = true → mondoCanonical r = r)
    ∧ (∀ r : String, strStartsWith r "MONDO" = false → mondoCanonical r = "MONDO:" ++ r) := by
  refine ⟨?_, ?_, ?_, ?_, ?_, ?_⟩
  · intro e he
    refine ⟨(selectBest docs none none).2.map (fun m => mondoCanonical m.id),
      pySetUnion (((selectBest docs none none).1.map OlsEntry.synonyms).getD [])
        (((selectBest docs none none).2.map OlsEntry.synonyms).getD []) label, ?_⟩
    have ht : pyTruthyS (some (efoCanonical e.id)) = true := by
      simp [pyTruthyS, bne_iff_ne, efoCanonical_ne_empty]
    simp only [resolve_disease_label, he, Option.map_some', ht, Bool.not_true,
      Bool.false_and, Bool.false_eq_true, if_false, Option.getD_some]
  · intro m hm
    refine ⟨((selectBest docs none none).1.map (fun e => efoCanonical e.id)).getD "",
      pySetUnion (((selectBest docs none none).1.map OlsEntry.synonyms).getD [])
        (((selectBest docs none none).2.map OlsEntry.synonyms).getD []) label, ?_⟩
    have ht : pyTruthyS (some (mondoCanonical m.id)) = true := by
      simp [pyTruthyS, bne_iff_ne, mondoCanonical_ne_empty]
    simp only [resolve_disease_label, hm, Option.map_some', ht, Bool.not_true,
      Bool.and_false, Bool.false_eq_true, if_false, Option.getD_some]
  · intro r h
    rw [efoCanonical, if_pos h]
  · intro r h
    rw [efoCanonical, if_neg (by simp [h])]
  · intro r h
    rw [mondoCanonical, if_pos h]
  · intro r h
    rw [mondoCanonical, if_neg (by simp [h])]

/-- Witness for `resolve_disease_normalization` at a concrete OLS document
list with one EFO match whose raw id is already prefixed. -/
theorem resolve_disease_normalization_witness :
    (∃ mid syns,
        resolve_disease_label
            [⟨some "efo", none, none, some "EFO_0000616", none, none, none, none, none⟩]
            "lung cancer"
          = Except.ok (efoCanonical "EFO_0000616", mid, syns))
    ∧ efoCanonical "EFO_0000616" = "EFO_0000616"
    ∧ efoCanonical "0000616" = "EFO_" ++ "0000616"
    ∧ mondoCanonical "0005233" = "MONDO:" ++ "0005233" := by
  refine ⟨?_, ?_, ?_, ?_⟩
  · exact (resolve_disease_normalization
      [⟨some "efo", none, none, some "EFO_0000616", none, none, none, none, none⟩]
      "lung cancer").1 ⟨"EFO_0000616", "", []⟩ rfl
  · exact (resolve_disease_normalization [] "").2.2.1 "EFO_0000616" (by decide)
  · exact (resolve_disease_normalization [] "").2.2.2.1 "0000616" (by decide)
  · exact (resolve_disease_normalization [] "").2.2.2.2.2 "0005233" (by decide)

/-! ## JSON values

Payloads that the Python code passes around as parsed JSON (`dict`/`list`
values) are modelled by this type.  Numbers are modelled as exact rationals.
-/

inductive Json where
  | null
  | bool (b : Bool)
  | num (q : Rat)
  | str (s : String)
  | arr (elems : List Json)
  | obj (fields : List (String × Json))

/-- Lookup in an association list with Python-dict semantics: a duplicated
key keeps its last binding. -/
def lookupLast (k : String) : List (String × Json) → Option Json
  | [] => none
  | (k', v) :: rest =>
    match lookupLast k rest with
    | some r => some r
    | none => if k' = k then some v else none

/-- Python `d.get(k)` on a parsed JSON value (non-objects have no keys). -/
def Json.get? : Json → String → Option Json
  | .obj fields, k => lookupLast k fields
  | _, _ => none

/-! ## AssociationScore collector: `get_opentargets_association` -/

/-- Constant `DEFAULT_OPENTARGETS_SIZE` from `config.py`. -/
def otPageSize : Nat := 50

/-- One row of an `associatedTargets` page as read by the collector. -/
structure OTRow where
  targetId? : Option String
  score? : Option Json
  datatypeScores? : Option Json

/-- One fetched page.  A response whose `data`/`disease`/`associatedTargets`
chain is missing collapses (through the `or {}` defaults) to empty rows and
a missing count, which this shape also represents. -/
structure OTPage where
  rows : List OTRow
  count? : Option Nat
  diseaseId? : Option String
  diseaseName? : Option String

/-- The dict returned when the target row is found. -/
structure OTResult where
  score? : Option Json
  datatypeScores? : Option Json
  diseaseId? : Option String
  diseaseName? : Option String
  targetId : String

/-- The row scan: first row whose `target.id` equals the requested id
(a row with no target id never matches). -/
def otFindRow (rows : List OTRow) (ensg : String) : Option OTRow :=
  rows.find? (fun r => r.targetId? == some ensg)

/-- Model of `get_opentargets_association` from `data_fetcher.py`.  `service i` is
the outcome of fetching page `i` (`none` models an exception escaping the
retried `fetch_json`, on which the loop breaks and the collector returns
`None`).  The `Nat` fuel truncates the unbounded `while True` loop: the
outer `none` means the loop was still running after `fuel` pages, the outer
`some r` that it terminated with result `r`. -/
def get_opentargets_association (service : Nat → Option OTPage) (ensg : String) :
    Nat → Nat → Option (Option OTResult)
  | 0, _ => none
  | fuel + 1, index =>
    match service index with
    | none => some none
    | some page =>
      match otFindRow page.rows ensg with
      | some row =>
          some (some ⟨row.score?, row.datatypeScores?, page.diseaseId?, page.diseaseName?, ensg⟩)
      | none =>
          if (index + 1) * otPageSize ≥ page.count?.getD 0 then some none
          else get_opentargets_association service ensg fuel (index + 1)

/-- A service whose page 0 is empty but reports `count = 100`, and whose
page 1 contains the requested target. -/
def otEmptyPageService : Nat → Option OTPage := fun i =>
  if i = 0 then some ⟨[], some 100, none, none⟩
  else if i = 1 then
    some ⟨[⟨some "ENSG00000141510", some (Json.num 1), none⟩], some 100,
          some "EFO_0000616", some "lung carcinoma"⟩
  else none

/-- Claim C8, counterexample: after the EMPTY page 0 (with
`1 * 50 < count = 100`) the loop keeps paginating and returns the row found
on page 1 — an empty page alone is NOT a stop condition, contradicting
"stops exactly when a page is empty, …". -/
theorem ot_empty_page_does_not_stop :
    otEmptyPageService 0 = some ⟨[], some 100, none, none⟩
    ∧ get_opentargets_association otEmptyPageService "ENSG00000141510" 5 0
        = some (some ⟨some (Json.num 1), none, some "EFO_0000616",
                      some "lung carcinoma", "ENSG00000141510"⟩) :=
  ⟨rfl, rfl⟩

/-- Claim C8, amended: whenever the pagination loop terminates, it visited
consecutive pages starting at the start index, continuing past a page
exactly when that page fetched successfully, did not contain the target id,
and `pages_fetched * page_size < total_count` (a missing count counting as
0); it stops with the first matching row's overall score and datatype
sub-scores when the target id is found, and stops with Empty exactly when
the page fetch failed or the count condition was reached without a match —
an empty page with a larger reported count does not stop it. -/
theorem ot_pagination_characterization (service : Nat → Option OTPage) (ensg : String) :
    ∀ (fuel start : Nat) (r : Option OTResult),
      get_opentargets_association service ensg fuel start = some r →
      ∃ n, start ≤ n
        ∧ (∀ k, start ≤ k → k < n →
            ∃ page, service k = some page ∧ otFindRow page.rows ensg = none ∧
              (k + 1) * otPageSize < page.count?.getD 0)
        ∧ ((∃ page row, service n = some page ∧ otFindRow page.rows ensg = some row ∧
              r = some ⟨row.score?, row.datatypeScores?, page.diseaseId?, page.diseaseName?, ensg⟩)
           ∨ (r = none ∧ (service n = none ∨
              ∃ page, service n = some page ∧ otFindRow page.rows ensg = none ∧
                page.count?.getD 0 ≤ (n + 1) * otPageSize))) := by
  intro fuel
  induction fuel with
  | zero =>
    intro start r h
    exact absurd h (by simp [get_opentargets_association])
  | succ f ih =>
    intro start r h
    rw [get_opentargets_association] at h
    cases hs : service start with
    | none =>
      simp only [hs, Option.some.injEq] at h
      refine ⟨start, Nat.le_refl _, ?_, Or.inr ⟨h.symm, Or.inl hs⟩⟩
      intro k hk1 hk2
      omega
    | some page =>
      simp only [hs] at h
      cases hf : otFindRow page.rows ensg with
      | some row =>
        simp only [hf, Option.some.injEq] at h
        refine ⟨start, Nat.le_refl _, ?_, Or.inl ⟨page, row, hs, hf, h.symm⟩⟩
        intro k hk1 hk2
        omega
      | none =>
        simp only [hf] at h
        by_cases hc : page.count?.getD 0 ≤ (start + 1) * otPageSize
        · rw [if_pos hc] at h
          injection h with h'
          refine ⟨start, Nat.le_refl _, ?_, Or.inr ⟨h'.symm, Or.inr ⟨page, hs, hf, hc⟩⟩⟩
          intro k hk1 hk2
          omega
        · rw [if_neg hc] at h
          obtain ⟨n, hn1, hn2, hn3⟩ := ih (start + 1) r h
          refine ⟨n, by omega, ?_, hn3⟩
          intro k hk1 hk2
          rcases Nat.eq_or_lt_of_le hk1 with heq | hlt
          · subst heq
            exact ⟨page, hs, hf, by omega⟩
          · exact hn2 k (by omega) hk2

/-- Witness for `ot_pagination_characterization` at the concrete service
with an empty first page. -/
theorem ot_pagination_characterization_witness :
    ∃ n, 0 ≤ n
      ∧ (∀ k, 0 ≤ k → k < n →
          ∃ page, otEmptyPageService k = some page ∧
            otFindRow page.rows "ENSG00000141510" = none ∧
            (k + 1) * otPageSize < page.count?.getD 0)
      ∧ ((∃ page row, otEmptyPageService n = some page ∧
            otFindRow page.rows "ENSG00000141510" = some row ∧
            (some (⟨some (Json.num 1), none, some "EFO_0000616",
              some "lung carcinoma", "ENSG00000141510"⟩ : OTResult) : Option OTResult)
              = some ⟨row.score?, row.datatypeScores?, page.diseaseId?, page.diseaseName?,
                  "ENSG00000141510"⟩)
         ∨ ((some (⟨some (Json.num 1), none, some "EFO_0000616",
              some "lung carcinoma", "ENSG00000141510"⟩ : OTResult) : Option OTResult) = none
            ∧ (otEmptyPageService n = none ∨
               ∃ page, otEmptyPageService n = some page ∧
                 otFindRow page.rows "ENSG00000141510" = none ∧
                 page.count?.getD 0 ≤ (n + 1) * otPageSize))) :=
  ot_pagination_characterization otEmptyPageService "ENSG00000141510" 5 0
    (some ⟨some (Json.num 1), none, some "EFO_0000616",
      some "lung carcinoma", "ENSG00000141510"⟩) rfl

/-! ## LLM internal rate limiter: `_check_rate_limit`

Timestamps are modelled in whole seconds (`Int`), on which the `int(...)`
truncation of the computed wait time is exact.  The tracker list is the
per-provider entry of `_rate_limit_tracker` (an absent provider key and an
empty list behave identically).
-/

/-- The exception data of `LLMRateLimitError` as raised by the rate check. -/
structure RateLimitedSig where
  provider : String
  retryAfter : Int
deriving DecidableEq, Repr

/-- Failure outcomes of the rate check: the rate-limit rejection, or the
`ValueError` that `min([])` would raise (unreachable at the call site,
which passes a positive ceiling). -/
inductive RateCheckErr where
  | rateLimited (sig : RateLimitedSig)
  | valueErr
deriving DecidableEq, Repr

/-- The window filter `[t for t in tracker if t > now - 60]`. -/
def inWindow (tracker : List Int) (now : Int) : List Int :=
  tracker.filter (fun t => decide (now - 60 < t))

/-- Model of `_check_rate_limit` from `llm_service.py`: prune the tracker to the
sliding 60-second window; if the in-window count is at or above the
ceiling, raise `LLMRateLimitError` with `retry_after = 61 - (now -
oldest_in_window)`; otherwise record `now`.  Returns the new tracker list
on success. -/
def check_rate_limit (provider : String) (tracker : List Int) (now : Int)
    (requestsPerMinute : Nat) : Except RateCheckErr (List Int) :=
  if requestsPerMinute ≤ (inWindow tracker now).length then
    match (inWindow tracker now).min? with
    | some oldest => .error (.rateLimited ⟨provider, 61 - (now - oldest)⟩)
    | none => .error .valueErr
  else
    .ok (inWindow tracker now ++ [now])

/-- Claim C4: with the ceiling of 20, (i) whenever at least 20 recorded
calls lie inside the sliding 60-second window the check rejects with a
rate-limit signal whose `retry_after` is exactly `61 -
seconds_since_oldest_in_window` and strictly positive (so 20 in-window
calls make the 21st check raise); (ii) once 61 seconds have elapsed since
every recorded call the window is empty and the next check succeeds; and
(iii) every successful check records the current timestamp, returning the
pruned window with `now` appended. -/
theorem check_rate_limit_spec (provider : String) (tracker : List Int) (now : Int) :
    (20 ≤ (inWindow tracker now).length →
      ∃ oldest, (inWindow tracker now).min? = some oldest ∧
        check_rate_limit provider tracker now 20
          = Except.error (.rateLimited ⟨provider, 61 - (now - oldest)⟩) ∧
        0 < 61 - (now - oldest))
    ∧ ((∀ t ∈ tracker, t + 61 ≤ now) →
        inWindow tracker now = []
        ∧ check_rate_limit provider tracker now 20 = Except.ok [now])
    ∧ (∀ l, check_rate_limit provider tracker now 20 = Except.ok l →
        l = inWindow tracker now ++ [now] ∧ now ∈ l) := by
  refine ⟨?_, ?_, ?_⟩
  · intro h
    have hne : inWindow tracker now ≠ [] := by
      intro he
      rw [he] at h
      simp at h
    cases hm : (inWindow tracker now).min? with
    | none => exact absurd (List.min?_eq_none_iff.mp hm) hne
    | some oldest =>
      have hmem : oldest ∈ inWindow tracker now :=
        List.min?_mem (fun a b => min_choice a b) hm
      have hwin : now - 60 < oldest := of_decide_eq_true (List.mem_filter.mp hmem).2
      refine ⟨oldest, rfl, ?_, by omega⟩
      rw [check_rate_limit, if_pos h, hm]
  · intro hall
    have hfil : inWindow tracker now = [] := by
      rw [inWindow, List.filter_eq_nil_iff]
      intro t ht
      simp only [decide_eq_true_eq]
      have := hall t ht
      omega
    refine ⟨hfil, ?_⟩
    rw [check_rate_limit, if_neg (by rw [hfil]; simp), hfil]
    rfl
  · intro l hl
    rw [check_rate_limit] at hl
    by_cases h : 20 ≤ (inWindow tracker now).length
    · rw [if_pos h] at hl
      cases hm : (inWindow tracker now).min? with
      | none => rw [hm] at hl; exact absurd hl (by simp)
      | some oldest => rw [hm] at hl; exact absurd hl (by simp)
    · rw [if_neg h] at hl
      injection hl with hl'
      exact ⟨hl'.symm, by rw [hl'.symm]; simp⟩

/-- Witness for `check_rate_limit_spec`: 20 calls at time 0 make the check
at time 30 raise with `retry_after = 31`; at time 61 the window has
cleared and the check succeeds, recording the call. -/
theorem check_rate_limit_spec_witness :
    (∃ oldest, (inWindow (List.replicate 20 0) 30).min? = some oldest ∧
      check_rate_limit "openai_internal" (List.replicate 20 0) 30 20
        = Except.error (.rateLimited ⟨"openai_internal", 61 - (30 - oldest)⟩) ∧
      0 < 61 - (30 - oldest))
    ∧ (inWindow (List.replicate 20 0) 61 = []
       ∧ check_rate_limit "openai_internal" (List.replicate 20 0) 61 20 = Except.ok [61]) := by
  constructor
  · exact (check_rate_limit_spec "openai_internal" (List.replicate 20 0) 30).1 (by decide)
  · exact (check_rate_limit_spec "openai_internal" (List.replicate 20 0) 61).2.1
      (by intro t ht; simp at ht; omega)

/-! ## `json.loads`

An executable model of Python's JSON parser on the grammar the service
exchanges: `null`, booleans, numbers (as exact rationals; the non-standard
`NaN`/`Infinity` literals are not modelled), strings with the standard
escapes (a lone UTF-16 surrogate in a `\uXXXX` escape, which Python would
keep, is approximated by `Char.ofNat`), arrays and objects.  `json_loads`
returns `none` where `json.loads` raises `JSONDecodeError` (including on
trailing data).
-/

/-- JSON insignificant whitespace. -/
def jsonWsChar (c : Char) : Bool := c = ' ' || c = '\t' || c = '\n' || c = '\r'

def skipJsonWs (l : List Char) : List Char := l.dropWhile jsonWsChar

def isDigitCh (c : Char) : Bool := '0' ≤ c && c ≤ '9'

/-- Scan a digit run, returning its value, its length, and the rest. -/
def takeDigitsGo : List Char → Nat → Nat → Nat × Nat × List Char
  | [], v, n => (v, n, [])
  | c :: r, v, n =>
    if isDigitCh c then takeDigitsGo r (v * 10 + (c.toNat - '0'.toNat)) (n + 1)
    else (v, n, c :: r)

def takeDigits (l : List Char) : Nat × Nat × List Char := takeDigitsGo l 0 0

/-- The JSON integer part `0|[1-9][0-9]*` (a leading zero may not be
followed by another digit). -/
def parseIntPart : List Char → Option (Nat × List Char)
  | '0' :: r =>
    match r with
    | c :: _ => if isDigitCh c then none else some (0, r)
    | [] => some (0, [])
  | l =>
    match takeDigits l with
    | (v, n, r) => if n = 0 then none else some (v, r)

/-- The optional fraction part `(.[0-9]+)?` as value and digit count. -/
def parseFrac : List Char → Option (Nat × Nat × List Char)
  | '.' :: r =>
    match takeDigits r with
    | (v, n, r2) => if n = 0 then none else some (v, n, r2)
  | l => some (0, 0, l)

/-- The optional exponent part `([eE][+-]?[0-9]+)?`. -/
def parseExp : List Char → Option (Int × List Char)
  | c :: r =>
    if c = 'e' || c = 'E' then
      match r with
      | '+' :: r2 =>
        match takeDigits r2 with
        | (v, n, r3) => if n = 0 then none else some ((v : Int), r3)
      | '-' :: r2 =>
        match takeDigits r2 with
        | (v, n, r3) => if n = 0 then none else some (-(v : Int), r3)
      | _ =>
        match takeDigits r with
        | (v, n, r3) => if n = 0 then none else some ((v : Int), r3)
    else some (0, c :: r)
  | [] => some (0, [])

/-- A JSON number, evaluated exactly as a rational. -/
def parseJsonNumber (l : List Char) : Option (Rat × List Char) :=
  match (match l with | '-' :: r => (true, r) | _ => (false, l)) with
  | (neg, l1) =>
    match parseIntPart l1 with
    | none => none
    | some (ip, r1) =>
      match parseFrac r1 with
      | none => none
      | some (fv, fn, r2) =>
        match parseExp r2 with
        | none => none
        | some (ex, r3) =>
          let mant : Int :=
            (if neg then -1 else 1) * Int.ofNat (ip * 10 ^ fn + fv)
          let e : Int := ex - Int.ofNat fn
          some ((if 0 ≤ e then mkRat (mant * Int.ofNat (10 ^ e.toNat)) 1
                 else mkRat mant (10 ^ (-e).toNat)), r3)

/-- Single-character string escapes. -/
def escMap (c : Char) : Option Char :=
  if c = '"' then some '"'
  else if c = '\\' then some '\\'
  else if c = '/' then some '/'
  else if c = 'b' then some (Char.ofNat 8)
  else if c = 'f' then some (Char.ofNat 12)
  else if c = 'n' then some '\n'
  else if c = 'r' then some '\r'
  else if c = 't' then some '\t'
  else none

def hexDigitVal (c : Char) : Option Nat :=
  let n := c.toNat
  if 48 ≤ n ∧ n ≤ 57 then some (n - 48)
  else if 97 ≤ n ∧ n ≤ 102 then some (n - 87)
  else if 65 ≤ n ∧ n ≤ 70 then some (n - 55)
  else none

def parseHex4 : List Char → Option (Nat × List Char)
  | a :: b :: c :: d :: r =>
    match hexDigitVal a, hexDigitVal b, hexDigitVal c, hexDigitVal d with
    | some x, some y, some z, some w => some (((x * 16 + y) * 16 + z) * 16 + w, r)
    | _, _, _, _ => none
  | _ => none

/-- String body scanner (the input starts after the opening quote); the
`Nat` is scan-step fuel, each step consuming at least one character. -/
def parseJsonStringGo : Nat → List Char → List Char → Option (List Char × List Char)
  | 0, _, _ => none
  | _ + 1, [], _ => none
  | fuel + 1, c :: rest, acc =>
    if c = '"' then some (acc.reverse, rest)
    else if c = '\\' then
      match rest with
      | [] => none
      | e :: rest2 =>
        if e = 'u' then
          match parseHex4 rest2 with
          | none => none
          | some (n, rest3) =>
            if 0xD800 ≤ n && n ≤ 0xDBFF then
              match rest3 with
              | '\\' :: 'u' :: rest4 =>
                match parseHex4 rest4 with
                | some (n2, rest5) =>
                  if 0xDC00 ≤ n2 && n2 ≤ 0xDFFF then
                    parseJsonStringGo fuel rest5
                      (Char.ofNat (0x10000 + (n - 0xD800) * 0x400 + (n2 - 0xDC00)) :: acc)
                  else parseJsonStringGo fuel rest3 (Char.ofNat n :: acc)
                | none => parseJsonStringGo fuel rest3 (Char.ofNat n :: acc)
              | _ => parseJsonStringGo fuel rest3 (Char.ofNat n :: acc)
            else parseJsonStringGo fuel rest3 (Char.ofNat n :: acc)
        else
          match escMap e with
          | some ec => parseJsonStringGo fuel rest2 (ec :: acc)
          | none => none
    else if c.toNat < 32 then none
    else parseJsonStringGo fuel rest (c :: acc)

mutual

/-- A JSON value with leading whitespace allowed; fuel bounds the nesting
and scanning work (each recursive call consumes at least one character, so
input length plus one always suffices). -/
def parseJsonValue : Nat → List Char → Option (Json × List Char)
  | 0, _ => none
  | fuel + 1, l =>
    match skipJsonWs l with
    | 'n' :: 'u' :: 'l' :: 'l' :: r => some (.null, r)
    | 't' :: 'r' :: 'u' :: 'e' :: r => some (.bool true, r)
    | 'f' :: 'a' :: 'l' :: 's' :: 'e' :: r => some (.bool false, r)
    | '"' :: r =>
      match parseJsonStringGo (r.length + 1) r [] with
      | some (cs, r2) => some (.str (String.mk cs), r2)
      | none => none
    | '[' :: r =>
      match skipJsonWs r with
      | ']' :: r2 => some (.arr [], r2)
      | _ => parseJsonArrayItems fuel r []
    | '\x7b' :: r =>
      match skipJsonWs r with
      | '\x7d' :: r2 => some (.obj [], r2)
      | _ => parseJsonObjItems fuel r []
    | l' =>
      match parseJsonNumber l' with
      | some (q, r) => some (.num q, r)
      | none => none

/-- Comma-separated array elements up to the closing bracket. -/
def parseJsonArrayItems : Nat → List Char → List Json → Option (Json × List Char)
  | 0, _, _ => none
  | fuel + 1, l, acc =>
    match parseJsonValue fuel l with
    | none => none
    | some (v, r) =>
      match skipJsonWs r with
      | ',' :: r2 => parseJsonArrayItems fuel r2 (v :: acc)
      | ']' :: r2 => some (.arr (v :: acc).reverse, r2)
      | _ => none

/-- Comma-separated object members up to the closing brace. -/
def parseJsonObjItems : Nat → List Char → List (String × Json) → Option (Json × List Char)
  | 0, _, _ => none
  | fuel + 1, l, acc =>
    match skipJsonWs l with
    | '"' :: r =>
      match parseJsonStringGo (r.length + 1) r [] with
      | none => none
      | some (k, r2) =>
        match skipJsonWs r2 with
        | ':' :: r3 =>
          match parseJsonValue fuel r3 with
          | none => none
          | some (v, r4) =>
            match skipJsonWs r4 with
            | ',' :: r5 => parseJsonObjItems fuel r5 ((String.mk k, v) :: acc)
            | '\x7d' :: r5 => some (.obj ((String.mk k, v) :: acc).reverse, r5)
            | _ => none
        | _ => none
    | _ => none

end

/-- Python `json.loads`: parse one value and require only whitespace after it. -/
def json_loads (s : String) : Option Json :=
  match parseJsonValue (s.data.length + 1) s.data with
  | some (v, rest) => if (skipJsonWs rest).isEmpty then some v else none
  | none => none

/-! ## Anthropic response interpretation (`LLMService._call_anthropic`) -/

/-- Python `re.search(r'\{[\s\S]*\}', content)`: the greedy match runs from the
FIRST `'\x7b'` of the text to the LAST `'\x7d'` at or after it (`none` when no
such pair exists). -/
def greedyBraceSpan (l : List Char) : Option (List Char) :=
  match (l.dropWhile (fun c => c != '\x7b')).reverse.dropWhile (fun c => c != '\x7d') with
  | [] => none
  | c :: rev => some ((c :: rev).reverse)

/-- The `try` part of the response interpretation: parse the regex match if
there is one, the whole content otherwise; `none` models
`json.JSONDecodeError`. -/
def anthropicExtract (content : String) : Option Json :=
  match greedyBraceSpan content.data with
  | some span => json_loads (String.mk span)
  | none => json_loads content

/-- The fallback dict both provider calls return when parsing fails: the
default `inconclusive`/`0.0` verdict with `_raw` set to the whole unparsed
content. -/
def parseFallback (content : String) : Json :=
  .obj [("verdict", .str "inconclusive"), ("confidence", .num 0),
        ("drivers", .obj []), ("key_points", .arr []),
        ("conflicts_or_gaps", .arr []), ("_raw", .str content)]

/-- The response interpretation of `_call_anthropic` as a function of the
response text. -/
def anthropic_interpret (content : String) : Json :=
  (anthropicExtract content).getD (parseFallback content)

/-- The response interpretation of `_call_openai`: `json.loads` on the
inline message content, with the same fallback dict on failure. -/
def openai_interpret (content : String) : Json :=
  (json_loads content).getD (parseFallback content)

/-- Depth-counting scanner for the first balanced brace block. -/
def fbbGo : List Char → Nat → List Char → Option (List Char)
  | [], _, _ => none
  | c :: rest, depth, acc =>
    if depth = 0 then
      if c = '\x7b' then fbbGo rest 1 [c] else fbbGo rest 0 []
    else
      if c = '\x7b' then fbbGo rest (depth + 1) (c :: acc)
      else if c = '\x7d' then
        if depth = 1 then some ((c :: acc).reverse) else fbbGo rest (depth - 1) (c :: acc)
      else fbbGo rest depth (c :: acc)

/-- Modelled from the spec: the specification describes the Anthropic
response handling as extracting "the first balanced `{...}` block" of the
response text; this definition follows those words (depth counting over
braces), for comparison with the code's greedy regex. -/
def firstBalancedBraceBlock (l : List Char) : Option (List Char) := fbbGo l 0 []

/-- Claim C5, counterexample: on a response holding TWO json objects, the
first balanced block parses fine (verdict `"strong"`), but the code's
greedy first-`{`-to-last-`}` span is not valid JSON, so the analyzer falls
back to the default `inconclusive` verdict with `_raw` set — the code does
not extract the first balanced block. -/
theorem anthropic_not_first_balanced :
    firstBalancedBraceBlock "Result: \x7b\"verdict\": \"strong\"\x7d Note: \x7b\"extra\": true\x7d end".data
      = some "\x7b\"verdict\": \"strong\"\x7d".data
    ∧ json_loads "\x7b\"verdict\": \"strong\"\x7d" = some (.obj [("verdict", .str "strong")])
    ∧ anthropic_interpret "Result: \x7b\"verdict\": \"strong\"\x7d Note: \x7b\"extra\": true\x7d end"
        = parseFallback "Result: \x7b\"verdict\": \"strong\"\x7d Note: \x7b\"extra\": true\x7d end"
    ∧ (anthropic_interpret "Result: \x7b\"verdict\": \"strong\"\x7d Note: \x7b\"extra\": true\x7d end").get?
        "verdict" = some (.str "inconclusive")
    ∧ (anthropic_interpret "Result: \x7b\"verdict\": \"strong\"\x7d Note: \x7b\"extra\": true\x7d end").get?
        "_raw" = some (.str "Result: \x7b\"verdict\": \"strong\"\x7d Note: \x7b\"extra\": true\x7d end") :=
  ⟨rfl, rfl, rfl, rfl, rfl⟩

theorem dropWhile_head_false {α} {p : α → Bool} {l : List α} {c : α} {r : List α}
    (h : l.dropWhile p = c :: r) : p c = false := by
  induction l with
  | nil => simp [List.dropWhile] at h
  | cons a t ih =>
    rw [List.dropWhile_cons] at h
    cases hp : p a with
    | true => rw [hp] at h; simp at h; exact ih h
    | false => rw [hp] at h; simp at h; rcases h with ⟨rfl, rfl⟩; exact hp

/-- Claim C5, amended: the analyzer extracts the greedy span running from
the first `'\x7b'` of the response to the last `'\x7d'` (no `'\x7b'` before it, no
`'\x7d'` after it) and parses THAT; on any parse failure it returns the
default object, whose `verdict` is `"inconclusive"`, whose `confidence` is
`0.0` and whose `_raw` is the whole unparsed content; when parsing
succeeds the parsed value is returned as is, so `_raw` is produced only in
the parse-failure case. -/
theorem anthropic_interpretation_spec (content : String) :
    (∀ span, greedyBraceSpan content.data = some span →
      (∃ pre post, content.data = pre ++ span ++ post
          ∧ '\x7b' ∉ pre ∧ '\x7d' ∉ post
          ∧ span.head? = some '\x7b' ∧ span.getLast? = some '\x7d')
      ∧ anthropic_interpret content
          = (json_loads (String.mk span)).getD (parseFallback content))
    ∧ (greedyBraceSpan content.data = none →
        anthropic_interpret content = (json_loads content).getD (parseFallback content))
    ∧ ((parseFallback content).get? "verdict" = some (.str "inconclusive")
        ∧ (parseFallback content).get? "confidence" = some (.num 0)
        ∧ (parseFallback content).get? "_raw" = some (.str content))
    ∧ (∀ v, anthropicExtract content = some v → anthropic_interpret content = v)
    ∧ (json_loads content = none → openai_interpret content = parseFallback content)
    ∧ (∀ v, json_loads content = some v → openai_interpret content = v) := by
  refine ⟨?_, ?_, ⟨rfl, rfl, rfl⟩, ?_, ?_, ?_⟩
  · intro span hspan
    constructor
    · rw [greedyBraceSpan] at hspan
      cases hd : (content.data.dropWhile (fun c => c != '\x7b')).reverse.dropWhile
          (fun c => c != '\x7d') with
      | nil => rw [hd] at hspan; cases hspan
      | cons c rev =>
        rw [hd] at hspan
        simp only [Option.some.injEq] at hspan
        have hc : c = '\x7d' := by
          have := dropWhile_head_false hd
          simpa using this
        have h1 : (content.data.dropWhile (fun c => c != '\x7b')).reverse.takeWhile
              (fun c => c != '\x7d') ++ (c :: rev)
            = (content.data.dropWhile (fun c => c != '\x7b')).reverse := by
          rw [← hd, List.takeWhile_append_dropWhile]
        have h2 : content.data.dropWhile (fun c => c != '\x7b')
            = (c :: rev).reverse
              ++ ((content.data.dropWhile (fun c => c != '\x7b')).reverse.takeWhile
                    (fun c => c != '\x7d')).reverse := by
          have := congrArg List.reverse h1
          rw [List.reverse_append, List.reverse_reverse] at this
          exact this.symm
        obtain ⟨P, hP⟩ : ∃ P,
            ((content.data.dropWhile (fun c => c != '\x7b')).reverse.takeWhile
              (fun c => c != '\x7d')).reverse = P := ⟨_, rfl⟩
        rw [hP] at h2
        refine ⟨content.data.takeWhile (fun c => c != '\x7b'), P, ?_, ?_, ?_, ?_, ?_⟩
        · rw [← hspan, List.append_assoc, ← h2, List.takeWhile_append_dropWhile]
        · intro hm
          have := List.mem_takeWhile_imp hm
          simp at this
        · intro hm
          rw [← hP, List.mem_reverse] at hm
          have := List.mem_takeWhile_imp hm
          simp at this
        · have hne : span ≠ [] := by
            rw [← hspan]
            simp
          obtain ⟨s0, s1, hsp2⟩ := List.exists_cons_of_ne_nil hne
          have h4 : content.data.dropWhile (fun c => c != '\x7b') = (s0 :: s1) ++ P := by
            rw [h2, hspan, hsp2]
          have htail : content.data.dropWhile (fun c => c != '\x7b') = s0 :: (s1 ++ P) := by
            rw [h4]
            rfl
          have h5 := dropWhile_head_false htail
          rw [hsp2, List.head?_cons]
          simpa using h5
        · rw [← hspan, List.getLast?_reverse, List.head?_cons, hc]
    · rw [anthropic_interpret, anthropicExtract, hspan]
  · intro h
    rw [anthropic_interpret, anthropicExtract, h]
  · intro v hv
    rw [anthropic_interpret, hv]
    rfl
  · intro h
    rw [openai_interpret, h]
    rfl
  · intro v hv
    rw [openai_interpret, hv]
    rfl

/-- Witness for `anthropic_interpretation_spec` at a concrete response
with prose around one JSON object. -/
theorem anthropic_interpretation_spec_witness :
    ((∃ pre post,
        "ok \x7b\"verdict\": \"weak\"\x7d done".data
            = pre ++ "\x7b\"verdict\": \"weak\"\x7d".data ++ post
          ∧ '\x7b' ∉ pre ∧ '\x7d' ∉ post
          ∧ "\x7b\"verdict\": \"weak\"\x7d".data.head? = some '\x7b'
          ∧ "\x7b\"verdict\": \"weak\"\x7d".data.getLast? = some '\x7d')
      ∧ anthropic_interpret "ok \x7b\"verdict\": \"weak\"\x7d done"
          = (json_loads (String.mk "\x7b\"verdict\": \"weak\"\x7d".data)).getD
              (parseFallback "ok \x7b\"verdict\": \"weak\"\x7d done"))
    ∧ anthropic_interpret "ok \x7b\"verdict\": \"weak\"\x7d done"
        = Json.obj [("verdict", Json.str "weak")] := by
  constructor
  · exact (anthropic_interpretation_spec "ok \x7b\"verdict\": \"weak\"\x7d done").1
      "\x7b\"verdict\": \"weak\"\x7d".data rfl
  · exact (anthropic_interpretation_spec "ok \x7b\"verdict\": \"weak\"\x7d done").2.2.2.1
      (Json.obj [("verdict", Json.str "weak")]) rfl

/-! ## Evidence Aggregator: `AnalysisService._fetch_evidence`

The collectors run under `asyncio.gather(..., return_exceptions=True)`; each
argument below of type `Except String _` is the outcome of one collector
task (`Except.error` models the task having raised). -/

/-- The `query.gene` block. -/
structure QueryGene where
  symbol : String
  ensemblId? : Option String
deriving DecidableEq, Repr

/-- The `query.disease` block. -/
structure QueryDisease where
  label : String
  efoId : String
  mondoId? : Option String
deriving DecidableEq, Repr

/-- The evidence dict assembled by `_fetch_evidence` (`query`, `synonyms`,
`opentargets`, `gwas_catalog`, `literature`). -/
structure EvidenceBundle where
  geneQ : QueryGene
  diseaseQ : QueryDisease
  geneSyns : List String
  diseaseSyns : List String
  opentargets : Option Json
  gwasCatalog : List Json
  literature : List Json

/-- Model of `_fetch_evidence` after identifier resolution: fan-in of the gathered
collector outcomes.  A failed OpenTargets task yields `None`, a failed
literature task `[]`; the GWAS fragment is `[]` when not opted in or when
its task failed. -/
def fetch_evidence (geneSymbol diseaseLabel : String) (ensg : Option String)
    (efoId : String) (mondoId? : Option String)
    (geneSyns diseaseSyns : List String) (includeGwas : Bool)
    (otOutcome : Except String (Option Json))
    (litOutcome : Except String (List Json))
    (gwasOutcome : Except String (List Json)) : EvidenceBundle where
  geneQ := ⟨geneSymbol, ensg⟩
  diseaseQ := ⟨diseaseLabel, efoId, mondoId?⟩
  geneSyns := geneSyns
  diseaseSyns := diseaseSyns
  opentargets := match otOutcome with | .ok o => o | .error _ => none
  gwasCatalog :=
    if includeGwas then (match gwasOutcome with | .ok l => l | .error _ => []) else []
  literature := match litOutcome with | .ok l => l | .error _ => []

/-! ## LLM Correlation Analyzer boundary and Orchestrator

`analyze_correlation` is decorated with
`@retry(stop=stop_after_attempt(3), retry=retry_if_exception_type((TimeoutException, ConnectError, LLMServiceUnavailableError)))`.
Timeouts and connection errors are converted to
`LLMServiceUnavailableError` inside the provider calls before they can
escape, so at this boundary the retryable set is exactly
`LLMServiceUnavailableError`.  tenacity's default `reraise=False` means
that once the attempts are exhausted it raises `RetryError`, NOT the last
`LLMServiceUnavailableError`. -/

/-- The exceptions that can escape one execution of the decorated body (the
internal rate check, whose `LLMRateLimitError` is `rateLimited`, followed
by the provider call), plus tenacity's `RetryError`. -/
inductive LLMErr where
  | auth (msg : String)
  | quota (msg : String)
  | rateLimited (msg : String) (retryAfter : Option Int)
  | serviceUnavailable (msg : String)
  | retryExhausted
  | valueErr (msg : String)
  | generic (msg : String)
deriving DecidableEq, Repr

/-- The tenacity retry predicate at the `analyze_correlation` boundary. -/
def isRetryableLLMErr : LLMErr → Bool
  | .serviceUnavailable _ => true
  | _ => false

/-- The tenacity retry loop: `attempts i` is the outcome of the `i`-th
execution of the decorated body; the second argument is the number of
attempts still allowed.  A non-retryable exception is re-raised as is; a
retryable one on the final attempt becomes `RetryError`
(`reraise=False`). -/
def tenacityRun (attempts : Nat → Except LLMErr Json) : Nat → Nat → Except LLMErr Json
  | _, 0 => .error .retryExhausted
  | i, 1 =>
    match attempts i with
    | .ok v => .ok v
    | .error e => if isRetryableLLMErr e then .error .retryExhausted else .error e
  | i, n + 2 =>
    match attempts i with
    | .ok v => .ok v
    | .error e =>
      if isRetryableLLMErr e then tenacityRun attempts (i + 1) (n + 1) else .error e

/-- Model of `LLMService.analyze_correlation` seen from the orchestrator:
`stop_after_attempt(3)`. -/
def analyze_correlation (attempts : Nat → Except LLMErr Json) : Except LLMErr Json :=
  tenacityRun attempts 0 3

/-- Python `float(str)` on the decimal forms (sign, digits, optional
fraction and exponent; the `inf`/`nan` words are not modelled). -/
def parsePyFloatBody (neg : Bool) (l : List Char) : Option Rat :=
  match takeDigits l with
  | (iv, ni, r1) =>
    match (match r1 with
           | '.' :: r2 => (match takeDigits r2 with | (fv, nf, r3) => (fv, nf, r3))
           | _ => (0, 0, r1)) with
    | (fv, nf, r2) =>
      if ni + nf = 0 then none
      else
        match parseExp r2 with
        | none => none
        | some (ex, r3) =>
          if r3.isEmpty then
            let mant : Int := (if neg then -1 else 1) * Int.ofNat (iv * 10 ^ nf + fv)
            let e : Int := ex - Int.ofNat nf
            some (if 0 ≤ e then mkRat (mant * Int.ofNat (10 ^ e.toNat)) 1
                  else mkRat mant (10 ^ (-e).toNat))
          else none

/-- Python `float(x)` on a parsed JSON value: numbers pass through,
booleans become 0/1, numeric strings are parsed, everything else raises
`TypeError`/`ValueError` (modelled as `Except.error`). -/
def pyFloat : Json → Except Unit Rat
  | .num q => .ok q
  | .bool b => .ok (mkRat (if b then 1 else 0) 1)
  | .str s =>
    match (match (s.data.dropWhile isPySpace).reverse.dropWhile isPySpace with
           | '+' :: r => parsePyFloatBody false r.reverse
           | '-' :: r => parsePyFloatBody true r.reverse
           | r => parsePyFloatBody false r.reverse) with
    | some q => .ok q
    | none => .error ()
  | _ => .error ()

/-- Run lifecycle states. -/
inductive RunStatus where
  | pending
  | processing
  | completed
  | failed
deriving DecidableEq, Repr

/-- The persisted `Result` row (fields the orchestrator writes). -/
structure ResultRec where
  evidenceJson? : Option EvidenceBundle
  llmOutputJson? : Option Json
  verdict? : Option Json
  confidence? : Option Rat
  errorMessage? : Option String

/-- The persisted `Analysis` row fields the orchestrator writes
(`completed_at` modelled as a set/unset flag). -/
structure AnalysisRec where
  status : RunStatus
  completedAtSet : Bool
  ensemblId? : Option String
  diseaseEfo? : Option String
deriving Repr

/-- One finished run: the sequence of states the `Analysis` row went
through plus the final rows. -/
structure RunOutcome where
  statusTrace : List RunStatus
  analysis : AnalysisRec
  result? : Option ResultRec

/-- Free-text part of the error messages built by the generic handler. -/
def llmErrText : LLMErr → String
  | .auth m => m
  | .quota m => m
  | .rateLimited m _ => m
  | .serviceUnavailable m => m
  | .retryExhausted => "RetryError"
  | .valueErr m => m
  | .generic m => m

/-- The body of the `if request.model:` block: run the analyzer and map its
outcome onto the result row (the `except`-chain of `run_analysis`). -/
def applyLLMStep (result : ResultRec) (attempts : Nat → Except LLMErr Json) : ResultRec :=
  match analyze_correlation attempts with
  | .ok out =>
    match pyFloat ((out.get? "confidence").getD (.num 0)) with
    | .ok c =>
      { result with
          llmOutputJson? := some out
          verdict? := some ((out.get? "verdict").getD (.str "inconclusive"))
          confidence? := some c }
    | .error _ =>
      { result with
          llmOutputJson? := some out
          verdict? := some (.str "error")
          confidence? := some (mkRat 0 1)
          errorMessage? := some ("Analysis Error: " ++ "float() failed") }
  | .error e =>
    match e with
    | .auth m =>
      { result with
          verdict? := some (.str "error")
          confidence? := some (mkRat 0 1)
          errorMessage? := some ("API Authentication Error: " ++ m) }
    | .quota m =>
      { result with
          verdict? := some (.str "error")
          confidence? := some (mkRat 0 1)
          errorMessage? := some ("API Quota Exceeded: " ++ m) }
    | .rateLimited m _ =>
      { result with
          verdict? := some (.str "retry_later")
          confidence? := some (mkRat 0 1)
          errorMessage? := some ("API Rate Limited: " ++ m) }
    | .serviceUnavailable m =>
      { result with
          verdict? := some (.str "service_unavailable")
          confidence? := some (mkRat 0 1)
          errorMessage? := some ("LLM Service Unavailable: " ++ m) }
    | e' =>
      { result with
          verdict? := some (.str "error")
          confidence? := some (mkRat 0 1)
          errorMessage? := some ("Analysis Error: " ++ llmErrText e') }

/-- Model of `AnalysisService.run_analysis` as a function of the step-2 outcome
(identifier resolution plus evidence aggregation), of whether an LLM model
was requested, and of the analyzer attempt outcomes.  The record starts in
`pending`; step 1 marks `processing`; a step-2 exception marks `failed`
and persists an error result without evidence; otherwise the evidence is
stored, the optional LLM step runs with every analyzer failure caught, and
the run is marked `completed` with the resolved ids copied from the
bundle's query block. -/
def run_analysis (ev : Except String EvidenceBundle) (modelRequested : Bool)
    (attempts : Nat → Except LLMErr Json) : RunOutcome :=
  match ev with
  | .error msg =>
    { statusTrace := [.pending, .processing, .failed]
      analysis := ⟨.failed, true, none, none⟩
      result? := some ⟨none, none, some (.str "error"), some (mkRat 0 1), some msg⟩ }
  | .ok evb =>
    let result0 : ResultRec := ⟨some evb, none, none, none, none⟩
    let result := if modelRequested then applyLLMStep result0 attempts else result0
    { statusTrace := [.pending, .processing, .completed]
      analysis := ⟨.completed, true, evb.geneQ.ensemblId?, some evb.diseaseQ.efoId⟩
      result? := some result }

/-- Claim C3: the bundle always carries the query block and both synonym
sets exactly as resolved; a failed collector task leaves exactly its own
fragment Empty (`None` for the association score, `[]` for literature and
for genetic associations); and each fragment is independent of the other
collectors' outcomes (so every other fragment stays intact). -/
theorem evidence_isolation (g d : String) (ensg : Option String) (efoId : String)
    (mondoId? : Option String) (gs ds : List String) (ig : Bool)
    (ot : Except String (Option Json)) (lit : Except String (List Json))
    (gw : Except String (List Json)) :
    (fetch_evidence g d ensg efoId mondoId? gs ds ig ot lit gw).geneQ = ⟨g, ensg⟩
    ∧ (fetch_evidence g d ensg efoId mondoId? gs ds ig ot lit gw).diseaseQ = ⟨d, efoId, mondoId?⟩
    ∧ (fetch_evidence g d ensg efoId mondoId? gs ds ig ot lit gw).geneSyns = gs
    ∧ (fetch_evidence g d ensg efoId mondoId? gs ds ig ot lit gw).diseaseSyns = ds
    ∧ (∀ msg, ot = Except.error msg →
        (fetch_evidence g d ensg efoId mondoId? gs ds ig ot lit gw).opentargets = none)
    ∧ (∀ msg, lit = Except.error msg →
        (fetch_evidence g d ensg efoId mondoId? gs ds ig ot lit gw).literature = [])
    ∧ (∀ msg, gw = Except.error msg →
        (fetch_evidence g d ensg efoId mondoId? gs ds ig ot lit gw).gwasCatalog = [])
    ∧ (∀ lit2, (fetch_evidence g d ensg efoId mondoId? gs ds ig ot lit2 gw).opentargets
          = (fetch_evidence g d ensg efoId mondoId? gs ds ig ot lit gw).opentargets
        ∧ (fetch_evidence g d ensg efoId mondoId? gs ds ig ot lit2 gw).gwasCatalog
          = (fetch_evidence g d ensg efoId mondoId? gs ds ig ot lit gw).gwasCatalog)
    ∧ (∀ ot2, (fetch_evidence g d ensg efoId mondoId? gs ds ig ot2 lit gw).literature
          = (fetch_evidence g d ensg efoId mondoId? gs ds ig ot lit gw).literature
        ∧ (fetch_evidence g d ensg efoId mondoId? gs ds ig ot2 lit gw).gwasCatalog
          = (fetch_evidence g d ensg efoId mondoId? gs ds ig ot lit gw).gwasCatalog)
    ∧ (∀ gw2, (fetch_evidence g d ensg efoId mondoId? gs ds ig ot lit gw2).opentargets
          = (fetch_evidence g d ensg efoId mondoId? gs ds ig ot lit gw).opentargets
        ∧ (fetch_evidence g d ensg efoId mondoId? gs ds ig ot lit gw2).literature
          = (fetch_evidence g d ensg efoId mondoId? gs ds ig ot lit gw).literature) := by
  refine ⟨rfl, rfl, rfl, rfl, ?_, ?_, ?_, fun _ => ⟨rfl, rfl⟩, fun _ => ⟨rfl, rfl⟩,
    fun _ => ⟨rfl, rfl⟩⟩
  · intro msg h
    rw [h]
    rfl
  · intro msg h
    rw [h]
    rfl
  · intro msg h
    rw [h]
    cases ig <;> rfl

/-- Witness for `evidence_isolation`: the literature collector throws while
the other collectors succeed. -/
theorem evidence_isolation_witness :
    EvidenceBundle.literature
      (fetch_evidence "TP53" "lung cancer" (some "ENSG00000141510") "EFO_0000616"
        (some "MONDO:0005233") ["TP53"] ["lung cancer"] true
        (Except.ok (some (Json.obj []))) (Except.error "connection reset") (Except.ok [])) = []
    ∧ EvidenceBundle.geneQ
      (fetch_evidence "TP53" "lung cancer" (some "ENSG00000141510") "EFO_0000616"
        (some "MONDO:0005233") ["TP53"] ["lung cancer"] true
        (Except.ok (some (Json.obj []))) (Except.error "connection reset") (Except.ok []))
      = ⟨"TP53", some "ENSG00000141510"⟩
    ∧ EvidenceBundle.opentargets
      (fetch_evidence "TP53" "lung cancer" (some "ENSG00000141510") "EFO_0000616"
        (some "MONDO:0005233") ["TP53"] ["lung cancer"] true
        (Except.ok (some (Json.obj []))) (Except.error "connection reset") (Except.ok []))
      = some (Json.obj []) :=
  ⟨(evidence_isolation "TP53" "lung cancer" (some "ENSG00000141510") "EFO_0000616"
      (some "MONDO:0005233") ["TP53"] ["lung cancer"] true
      (Except.ok (some (Json.obj []))) (Except.error "connection reset")
      (Except.ok [])).2.2.2.2.2.1 "connection reset" rfl,
    (evidence_isolation "TP53" "lung cancer" (some "ENSG00000141510") "EFO_0000616"
      (some "MONDO:0005233") ["TP53"] ["lung cancer"] true
      (Except.ok (some (Json.obj []))) (Except.error "connection reset")
      (Except.ok [])).1, rfl⟩

/-- Claim C2: every run reaches a terminal state with `completed_at` set;
`failed` occurs exactly when step 2 (identifier resolution or evidence
aggregation) raised, in which case a result with verdict `"error"`,
confidence 0.0 and the error message (and no evidence) is persisted; and
the state sequence is exactly `pending → processing → terminal`, visiting
no state twice. -/
theorem run_reaches_terminal (ev : Except String EvidenceBundle) (modelRequested : Bool)
    (attempts : Nat → Except LLMErr Json) :
    ((run_analysis ev modelRequested attempts).analysis.status = RunStatus.completed
      ∨ (run_analysis ev modelRequested attempts).analysis.status = RunStatus.failed)
    ∧ ((run_analysis ev modelRequested attempts).analysis.status = RunStatus.failed
        ↔ ∃ msg, ev = Except.error msg)
    ∧ (∀ msg, ev = Except.error msg →
        (run_analysis ev modelRequested attempts).result?
          = some ⟨none, none, some (.str "error"), some (mkRat 0 1), some msg⟩)
    ∧ (run_analysis ev modelRequested attempts).analysis.completedAtSet = true
    ∧ (run_analysis ev modelRequested attempts).statusTrace
        = [RunStatus.pending, RunStatus.processing,
           (run_analysis ev modelRequested attempts).analysis.status]
    ∧ (run_analysis ev modelRequested attempts).statusTrace.Nodup := by
  rcases ev with msg | evb
  · refine ⟨Or.inr rfl, ⟨fun _ => ⟨msg, rfl⟩, fun _ => rfl⟩, ?_, rfl, rfl, ?_⟩
    · intro msg' hmsg
      injection hmsg with h
      subst h
      rfl
    · simp [run_analysis]
  · refine ⟨Or.inl rfl, ⟨fun h => ?_, fun hm => ?_⟩, ?_, rfl, rfl, ?_⟩
    · simp [run_analysis] at h
    · obtain ⟨m, hm⟩ := hm
      simp at hm
    · intro msg hmsg
      simp at hmsg
    · simp [run_analysis]

/-- Witness for `run_reaches_terminal`: identifier resolution throws. -/
theorem run_reaches_terminal_witness :
    (run_analysis (Except.error "Could not resolve disease 'x' via OLS.") false
        (fun _ => Except.error LLMErr.retryExhausted)).result?
      = some ⟨none, none, some (.str "error"), some (mkRat 0 1),
          some "Could not resolve disease 'x' via OLS."⟩
    ∧ ((run_analysis (Except.error "Could not resolve disease 'x' via OLS.") false
        (fun _ => Except.error LLMErr.retryExhausted)).analysis.status = RunStatus.failed
        ↔ ∃ msg, (Except.error "Could not resolve disease 'x' via OLS."
            : Except String EvidenceBundle) = Except.error msg) :=
  ⟨(run_reaches_terminal (Except.error "Could not resolve disease 'x' via OLS.") false
      (fun _ => Except.error LLMErr.retryExhausted)).2.2.1
      "Could not resolve disease 'x' via OLS." rfl,
   (run_reaches_terminal (Except.error "Could not resolve disease 'x' via OLS.") false
      (fun _ => Except.error LLMErr.retryExhausted)).2.1⟩

/-- The verdict column of the persisted result of a run. -/
def resultVerdict? (o : RunOutcome) : Option (Option Json) :=
  o.result?.map ResultRec.verdict?

/-- The confidence column and whether evidence was persisted. -/
def resultConfsEvidence? (o : RunOutcome) : Option (Option Rat × Bool) :=
  o.result?.map (fun r => (r.confidence?, r.evidenceJson?.isSome))

/-- Claim C1, evaluation at the failing input: with resolution and
aggregation succeeded and a model requested, a single `auth`, `quota` or
`rateLimited` analyzer failure maps to `error`/`error`/`retry_later` as
claimed, the failure is caught and the run completes with evidence
persisted; BUT when the analyzer fails with `ServiceUnavailable` on all
three attempts, tenacity raises `RetryError`, the orchestrator's dedicated
`LLMServiceUnavailableError` handler never sees it, and the catch-all
persists verdict `"error"` — not the claimed `"service_unavailable"`. -/
theorem llm_failure_mapping_retry_bug :
    resultVerdict? (run_analysis (Except.ok (fetch_evidence "TP53" "lung cancer"
        (some "ENSG00000141510") "EFO_0000616" none ["TP53"] ["lung cancer"] false
        (Except.ok none) (Except.ok []) (Except.ok []))) true
        (fun _ => Except.error (.auth "bad key"))) = some (some (.str "error"))
    ∧ resultVerdict? (run_analysis (Except.ok (fetch_evidence "TP53" "lung cancer"
        (some "ENSG00000141510") "EFO_0000616" none ["TP53"] ["lung cancer"] false
        (Except.ok none) (Except.ok []) (Except.ok []))) true
        (fun _ => Except.error (.quota "quota"))) = some (some (.str "error"))
    ∧ resultVerdict? (run_analysis (Except.ok (fetch_evidence "TP53" "lung cancer"
        (some "ENSG00000141510") "EFO_0000616" none ["TP53"] ["lung cancer"] false
        (Except.ok none) (Except.ok []) (Except.ok []))) true
        (fun _ => Except.error (.rateLimited "slow down" (some 60))))
      = some (some (.str "retry_later"))
    ∧ analyze_correlation (fun _ => Except.error (.serviceUnavailable "503"))
        = Except.error LLMErr.retryExhausted
    ∧ AnalysisRec.status (RunOutcome.analysis (run_analysis (Except.ok (fetch_evidence
        "TP53" "lung cancer" (some "ENSG00000141510") "EFO_0000616" none ["TP53"]
        ["lung cancer"] false (Except.ok none) (Except.ok []) (Except.ok []))) true
        (fun _ => Except.error (.serviceUnavailable "503")))) = RunStatus.completed
    ∧ resultVerdict? (run_analysis (Except.ok (fetch_evidence "TP53" "lung cancer"
        (some "ENSG00000141510") "EFO_0000616" none ["TP53"] ["lung cancer"] false
        (Except.ok none) (Except.ok []) (Except.ok []))) true
        (fun _ => Except.error (.serviceUnavailable "503"))) = some (some (.str "error"))
    ∧ resultConfsEvidence? (run_analysis (Except.ok (fetch_evidence "TP53" "lung cancer"
        (some "ENSG00000141510") "EFO_0000616" none ["TP53"] ["lung cancer"] false
        (Except.ok none) (Except.ok []) (Except.ok []))) true
        (fun _ => Except.error (.serviceUnavailable "503"))) = some (some (mkRat 0 1), true)
    ∧ (("error" : String) == "service_unavailable") = false
    ∧ analyze_correlation (fun i => if i < 2 then Except.error (.serviceUnavailable "503")
        else Except.ok (Json.obj [("verdict", .str "strong")]))
        = Except.ok (Json.obj [("verdict", .str "strong")]) :=
  ⟨rfl, rfl, rfl, rfl, rfl, rfl, rfl, rfl, rfl⟩

end GeneDisease
